import Mathlib

/-!
Verification of the medical-emergency matching / reservation / dispatch core.

The definitions below are a shallow embedding of the backend sources:
  - routes/emergency.js          (Emergency schema methods, PATCH /status, PATCH /cancel)
  - models/Hospital.js           (capacity schema, pre-save clamp, score methods)
  - services hospital module     (findNearbyHospitals, distance, scores, reserveBed)
  - services ambulance module    (calculateDistance, calculateETA, release/dispatch)

JavaScript numbers are modelled as exact arithmetic: integer counters as Int,
exact fractional arithmetic as Rat, and the trigonometric Haversine pipeline
over Real.  Persistence (mongoose save) is modelled as the validation +
pre-save-hook transformation it performs on the document.
-/

namespace MedEmergency

/-- The fixed emergency-type enum of the Emergency schema. -/
inductive EmergencyType
  | cardiac | trauma | stroke | respiratory | neurological
  | poisoning | burns | childbirth | other
deriving DecidableEq, Repr

/-- The severity enum of the Emergency schema. -/
inductive Severity
  | critical | urgent | moderate
deriving DecidableEq, Repr

/-- The response-status enum of the Emergency schema (routes/emergency.js). -/
inductive EStatus
  | submitted | processing | ambulance_dispatched | en_route | arrived_at_scene
  | transported | arrived_at_hospital | completed | cancelled
deriving DecidableEq, Repr

/-- The wire name of each status, as interpolated into timeline events. -/
def statusName : EStatus → String
  | .submitted => "submitted"
  | .processing => "processing"
  | .ambulance_dispatched => "ambulance_dispatched"
  | .en_route => "en_route"
  | .arrived_at_scene => "arrived_at_scene"
  | .transported => "transported"
  | .arrived_at_hospital => "arrived_at_hospital"
  | .completed => "completed"
  | .cancelled => "cancelled"

/-- A GeoJSON point; the schema stores coordinates as [longitude, latitude]. -/
structure GeoPoint where
  longitude : ℚ
  latitude : ℚ
deriving DecidableEq, Repr

/-- One entry of the append-only timeline array of the Emergency schema. -/
structure TimelineEvent where
  timestamp : Nat
  event : String
  details : String
  updatedBy : String
  location : Option GeoPoint
deriving DecidableEq, Repr

/-- The `response` sub-document: current status plus milestone timestamps. -/
structure EmergencyResponse where
  status : EStatus
  dispatchTime : Option Nat
  arrivalTime : Option Nat
  transportTime : Option Nat
  hospitalArrivalTime : Option Nat
  completionTime : Option Nat
deriving DecidableEq, Repr

/-- The slice of the Emergency document that the status-transition and cancel
operations read and write. -/
structure Emergency where
  emergencyId : String
  response : EmergencyResponse
  timeline : List TimelineEvent
deriving DecidableEq, Repr

/-- `emergencySchema.methods.addTimelineEvent`: push an entry onto the
timeline (the `save()` call persists the document; persistence is identity
here). -/
def addTimelineEvent (e : Emergency) (event details updatedBy : String)
    (timestamp : Nat) (location : Option GeoPoint) : Emergency :=
  { e with timeline := e.timeline ++
      [{ timestamp := timestamp, event := event, details := details,
         updatedBy := updatedBy, location := location }] }

/-- The milestone-timestamp switch inside `updateStatus`. -/
def stampStatusTime (r : EmergencyResponse) (newStatus : EStatus) (now : Nat) :
    EmergencyResponse :=
  match newStatus with
  | .ambulance_dispatched => { r with dispatchTime := some now }
  | .arrived_at_scene => { r with arrivalTime := some now }
  | .transported => { r with transportTime := some now }
  | .arrived_at_hospital => { r with hospitalArrivalTime := some now }
  | .completed => { r with completionTime := some now }
  | _ => r

/-- `emergencySchema.methods.updateStatus` (routes/emergency.js lines 675-699):
set `response.status`, append a `Status changed to <s>` timeline event, stamp
the milestone timestamp for the fixed subset of statuses, save.  The method
performs no precondition check of any kind; `new Date()` is modelled by the
explicit `now` parameter. -/
def updateStatus (e : Emergency) (newStatus : EStatus) (updatedBy details : String)
    (now : Nat) : Emergency :=
  let e1 := { e with response := { e.response with status := newStatus } }
  let e2 := addTimelineEvent e1 ("Status changed to " ++ statusName newStatus)
      details updatedBy now none
  { e2 with response := stampStatusTime e2.response newStatus now }

lemma updateStatus_status (e : Emergency) (s : EStatus) (updatedBy details : String)
    (now : Nat) : (updateStatus e s updatedBy details now).response.status = s := by
  cases s <;> rfl

lemma updateStatus_timeline (e : Emergency) (s : EStatus) (updatedBy details : String)
    (now : Nat) :
    (updateStatus e s updatedBy details now).timeline = e.timeline ++
      [{ timestamp := now, event := "Status changed to " ++ statusName s,
         details := details, updatedBy := updatedBy, location := none }] := by
  cases s <;> rfl

/-- C1 (amended): the status-transition operation never fails.  For every
current status (terminal ones included) and every target status (out-of-order
jumps included), `updateStatus` sets the status to the target and appends
exactly one timeline entry; no InvalidStateTransition check exists in the
code (the HTTP layer validates only that the target is a member of the status
enum). -/
theorem updateStatus_unconditional (e : Emergency) (s : EStatus)
    (updatedBy details : String) (now : Nat) :
    (updateStatus e s updatedBy details now).response.status = s ∧
    (updateStatus e s updatedBy details now).timeline = e.timeline ++
      [{ timestamp := now, event := "Status changed to " ++ statusName s,
         details := details, updatedBy := updatedBy, location := none }] :=
  ⟨updateStatus_status e s updatedBy details now,
   updateStatus_timeline e s updatedBy details now⟩

/-- Actor string used in concrete transition scenarios. -/
def sysActor : String := "ems"

/-- Empty details string used in concrete transition scenarios. -/
def emptyStr : String := ""

/-- An emergency that has already reached the terminal status `completed`. -/
def completedEmergency : Emergency :=
  { emergencyId := "EMG-TEST01",
    response := { status := .completed, dispatchTime := none, arrivalTime := none,
                  transportTime := none, hospitalArrivalTime := none,
                  completionTime := some 1 },
    timeline := [] }

/-- C1 (counterexample): from the terminal status `completed`, requesting the
out-of-order target `processing` does not fail and does not leave the
emergency unchanged — the status becomes `processing` and the timeline
grows, contradicting the claimed InvalidStateTransition rejection. -/
theorem updateStatus_terminal_counterexample :
    (updateStatus completedEmergency .processing sysActor emptyStr 5).response.status =
      EStatus.processing ∧
    (updateStatus completedEmergency .processing sysActor emptyStr 5).timeline.length =
      completedEmergency.timeline.length + 1 := by
  exact ⟨rfl, rfl⟩

/-! ## Hospital data model (models/Hospital.js) -/

/-- The `capacity` sub-document of the Hospital schema. -/
structure HospitalCapacity where
  totalBeds : ℤ
  availableBeds : ℤ
  icuBeds : ℤ
  availableIcuBeds : ℤ
  emergencyRooms : ℤ
  availableEmergencyRooms : ℤ
deriving DecidableEq, Repr

/-- The `equipment` fields consulted by the scoring and capability methods. -/
structure HospitalEquipment where
  mriMachine : Bool
  ctScan : Bool
  defibrillators : ℤ
  ventilators : ℤ
  bloodBank : Bool
deriving DecidableEq, Repr

/-- The `emergencyServices` sub-document (trauma level kept as its schema
string, e.g. "Level I" / "None"). -/
structure EmergencyServices where
  traumaLevel : String
  strokeCenter : Bool
  heartAttackCenter : Bool
  burnCenter : Bool
  poisonControl : Bool
deriving DecidableEq, Repr

/-- The `rating` sub-document. -/
structure HospitalRating where
  overall : ℚ
  emergency : ℚ
  reviews : ℤ
deriving DecidableEq, Repr

/-- The slice of the Hospital document read or written by the verified
operations. -/
structure Hospital where
  name : String
  location : GeoPoint
  capacity : HospitalCapacity
  specialties : List String
  emergencyServices : EmergencyServices
  equipment : HospitalEquipment
  rating : HospitalRating
  status : String
deriving DecidableEq, Repr

/-- Equality of `Except` results is decidable when both components are. -/
instance {ε α : Type} [DecidableEq ε] [DecidableEq α] : DecidableEq (Except ε α)
  | .error e, .error f =>
    if h : e = f then isTrue (by rw [h]) else isFalse (by simp [h])
  | .error _, .ok _ => isFalse (by simp)
  | .ok _, .error _ => isFalse (by simp)
  | .ok a, .ok b =>
    if h : a = b then isTrue (by rw [h]) else isFalse (by simp [h])

/-- First statement of the `pre('save')` hook: clamp `availableBeds` down to
`totalBeds`. -/
def clampBeds (c : HospitalCapacity) : HospitalCapacity :=
  if c.availableBeds > c.totalBeds then { c with availableBeds := c.totalBeds } else c

/-- Second statement of the `pre('save')` hook: clamp `availableIcuBeds`. -/
def clampIcu (c : HospitalCapacity) : HospitalCapacity :=
  if c.availableIcuBeds > c.icuBeds then { c with availableIcuBeds := c.icuBeds } else c

/-- Third statement of the `pre('save')` hook: clamp
`availableEmergencyRooms`. -/
def clampEr (c : HospitalCapacity) : HospitalCapacity :=
  if c.availableEmergencyRooms > c.emergencyRooms then
    { c with availableEmergencyRooms := c.emergencyRooms } else c

/-- The `hospitalSchema.pre('save')` hook (Hospital.js lines 264-280): each
`available*` counter is clamped down to its capacity counter when it
exceeds it, in the three statements above. -/
def preSaveClamp (h : Hospital) : Hospital :=
  { h with capacity := clampEr (clampIcu (clampBeds h.capacity)) }

/-- The `min: 0` mongoose validators on the six capacity counters; a document
violating one is rejected by `save()` with a validation error. -/
def capacityMinValid (c : HospitalCapacity) : Prop :=
  0 ≤ c.totalBeds ∧ 0 ≤ c.availableBeds ∧ 0 ≤ c.icuBeds ∧
  0 ≤ c.availableIcuBeds ∧ 0 ≤ c.emergencyRooms ∧ 0 ≤ c.availableEmergencyRooms

instance (c : HospitalCapacity) : Decidable (capacityMinValid c) := by
  unfold capacityMinValid; infer_instance

/-- Error channel of `save()`. -/
inductive SaveError
  | validationFailed
deriving DecidableEq, Repr

/-- `hospital.save()`: mongoose runs schema validation (the `min: 0`
validators) and then the user `pre('save')` clamp hook before persisting. -/
def hospitalSave (h : Hospital) : Except SaveError Hospital :=
  if capacityMinValid h.capacity then .ok (preSaveClamp h)
  else .error .validationFailed

/-- Error channel of `HospitalService.reserveBed` (the `throw new Error('No
available beds')` path, the spec's NoAvailableResourceError, plus a save
failure path). -/
inductive ReserveBedError
  | noAvailableBeds
  | saveFailed
deriving DecidableEq, Repr

/-- The `emergencyType === 'cardiac' || 'stroke' || 'trauma'` test guarding
the ICU decrement in `reserveBed`. -/
def icuEmergencyType (t : EmergencyType) : Prop :=
  t = .cardiac ∨ t = .stroke ∨ t = .trauma

instance (t : EmergencyType) : Decidable (icuEmergencyType t) := by
  unfold icuEmergencyType; infer_instance

/-- The two decrement statements of `reserveBed`: take one general bed, and
one ICU bed when the type is cardiac/stroke/trauma and one is free. -/
def reserveBedCapacity (c : HospitalCapacity) (t : EmergencyType) : HospitalCapacity :=
  let c1 := { c with availableBeds := c.availableBeds - 1 }
  if icuEmergencyType t ∧ c1.availableIcuBeds > 0 then
    { c1 with availableIcuBeds := c1.availableIcuBeds - 1 } else c1

/-- `HospitalService.reserveBed` (hospital service lines 626-662), applied to
the hospital the lookup found: fail when `availableBeds === 0`; otherwise
decrement `availableBeds`, additionally decrement `availableIcuBeds` when the
type is cardiac/stroke/trauma and an ICU bed is free, then `save()`. -/
def reserveBed (h : Hospital) (t : EmergencyType) : Except ReserveBedError Hospital :=
  if h.capacity.availableBeds = 0 then .error .noAvailableBeds
  else
    match hospitalSave { h with capacity := reserveBedCapacity h.capacity t } with
    | .ok h2 => .ok h2
    | .error _ => .error .saveFailed

/-- A partial capacity record, as passed to `updateCapacity`;
`Object.assign` overwrites exactly the provided keys. -/
structure CapacityPatch where
  totalBeds : Option ℤ
  availableBeds : Option ℤ
  icuBeds : Option ℤ
  availableIcuBeds : Option ℤ
  emergencyRooms : Option ℤ
  availableEmergencyRooms : Option ℤ
deriving DecidableEq, Repr

/-- `Object.assign(this.capacity, capacityData)`. -/
def applyCapacityPatch (c : HospitalCapacity) (p : CapacityPatch) : HospitalCapacity :=
  { totalBeds := p.totalBeds.getD c.totalBeds,
    availableBeds := p.availableBeds.getD c.availableBeds,
    icuBeds := p.icuBeds.getD c.icuBeds,
    availableIcuBeds := p.availableIcuBeds.getD c.availableIcuBeds,
    emergencyRooms := p.emergencyRooms.getD c.emergencyRooms,
    availableEmergencyRooms := p.availableEmergencyRooms.getD c.availableEmergencyRooms }

/-- `hospitalSchema.methods.updateCapacity` /
`HospitalService.updateHospitalCapacity`: assign the patch and `save()`. -/
def updateHospitalCapacity (h : Hospital) (p : CapacityPatch) : Except SaveError Hospital :=
  hospitalSave { h with capacity := applyCapacityPatch h.capacity p }

/-- The capacity invariant of spec section 8: every `available*` counter is
between 0 and its capacity counter. -/
def capacityOk (h : Hospital) : Prop :=
  0 ≤ h.capacity.availableBeds ∧ h.capacity.availableBeds ≤ h.capacity.totalBeds ∧
  0 ≤ h.capacity.availableIcuBeds ∧ h.capacity.availableIcuBeds ≤ h.capacity.icuBeds ∧
  0 ≤ h.capacity.availableEmergencyRooms ∧
    h.capacity.availableEmergencyRooms ≤ h.capacity.emergencyRooms

instance (h : Hospital) : Decidable (capacityOk h) := by
  unfold capacityOk; infer_instance

/-- Hospital states reachable through the exposed mutating operations: a
document successfully saved (creation / seeding), a successful bed
reservation, or a capacity update. -/
inductive ReachableHospital : Hospital → Prop
  | saved (h h' : Hospital) : hospitalSave h = .ok h' → ReachableHospital h'
  | reserved (h h' : Hospital) (t : EmergencyType) : ReachableHospital h →
      reserveBed h t = .ok h' → ReachableHospital h'
  | capacityUpdated (h h' : Hospital) (p : CapacityPatch) : ReachableHospital h →
      updateHospitalCapacity h p = .ok h' → ReachableHospital h'

lemma hospitalSave_ok_capacityOk {h h' : Hospital} (hs : hospitalSave h = .ok h') :
    capacityOk h' := by
  unfold hospitalSave at hs
  split at hs
  case isTrue hv =>
    cases hs
    obtain ⟨v1, v2, v3, v4, v5, v6⟩ := hv
    unfold capacityOk preSaveClamp clampEr clampIcu clampBeds
    split_ifs <;> (try dsimp only at *) <;> omega
  case isFalse => cases hs

lemma reserveBed_ok_capacityOk {h h' : Hospital} {t : EmergencyType}
    (hr : reserveBed h t = .ok h') : capacityOk h' := by
  unfold reserveBed at hr
  split at hr
  · cases hr
  · cases hsv : hospitalSave { h with capacity := reserveBedCapacity h.capacity t } with
    | ok g =>
      rw [hsv] at hr
      cases hr
      exact hospitalSave_ok_capacityOk hsv
    | error e =>
      rw [hsv] at hr
      cases hr

lemma updateHospitalCapacity_ok_capacityOk {h h' : Hospital} {p : CapacityPatch}
    (hu : updateHospitalCapacity h p = .ok h') : capacityOk h' :=
  hospitalSave_ok_capacityOk hu

/-- C4: every hospital state reachable through the exposed operations (bed
reservation, capacity update, save) satisfies 0 ≤ availableBeds ≤ totalBeds,
0 ≤ availableIcuBeds ≤ icuBeds and
0 ≤ availableEmergencyRooms ≤ emergencyRooms: the `min: 0` validators reject
negative counters and the pre-save hook clamps each `available*` counter to
its capacity before anything is persisted. -/
theorem reachable_hospital_capacity_invariant (h : Hospital)
    (hr : ReachableHospital h) : capacityOk h := by
  induction hr with
  | saved g g' hs => exact hospitalSave_ok_capacityOk hs
  | reserved g g' t _ hs _ => exact reserveBed_ok_capacityOk hs
  | capacityUpdated g g' p _ hs _ => exact updateHospitalCapacity_ok_capacityOk hs

/-- A concrete, already-consistent hospital used to instantiate theorems. -/
def sampleHospital : Hospital :=
  { name := "Metropolitan General Hospital",
    location := { longitude := -73, latitude := 41 },
    capacity := { totalBeds := 20, availableBeds := 10, icuBeds := 8,
                  availableIcuBeds := 5, emergencyRooms := 3,
                  availableEmergencyRooms := 2 },
    specialties := ["Cardiology", "Emergency Medicine"],
    emergencyServices := { traumaLevel := "Level I", strokeCenter := true,
                           heartAttackCenter := true, burnCenter := false,
                           poisonControl := false },
    equipment := { mriMachine := true, ctScan := true, defibrillators := 4,
                   ventilators := 6, bloodBank := true },
    rating := { overall := 4, emergency := 4, reviews := 120 },
    status := "Active" }

/-- C4 (witness): the invariant theorem applied to a concrete reachable
state — `sampleHospital` is reachable because saving it succeeds and returns
it unchanged. -/
theorem reachable_hospital_capacity_invariant_witness : capacityOk sampleHospital :=
  reachable_hospital_capacity_invariant sampleHospital
    (ReachableHospital.saved sampleHospital sampleHospital (by decide))

/-- The check-and-decrement outcome the claim describes: one general bed
taken, plus an ICU bed exactly when the type is cardiac/stroke/trauma and an
ICU bed is free. -/
def reserveBedSpec (h : Hospital) (t : EmergencyType) : Hospital :=
  { h with capacity := { h.capacity with
      availableBeds := h.capacity.availableBeds - 1,
      availableIcuBeds := if icuEmergencyType t ∧ h.capacity.availableIcuBeds > 0
        then h.capacity.availableIcuBeds - 1 else h.capacity.availableIcuBeds } }

/-- C3: on any hospital satisfying the capacity invariant, `reserveBed` fails
with the no-available-beds error exactly when `availableBeds = 0`, and
otherwise succeeds, decrementing `availableBeds` by exactly one and
`availableIcuBeds` by exactly one iff the emergency type is cardiac, stroke
or trauma and an ICU bed is free; ICU scarcity never fails the
reservation. -/
lemma preSaveClamp_of_capacityOk (g : Hospital) (hg : capacityOk g) :
    preSaveClamp g = g := by
  obtain ⟨g1, g2, g3, g4, g5, g6⟩ := hg
  unfold preSaveClamp clampBeds
  rw [if_neg (by omega)]
  unfold clampIcu
  rw [if_neg (by omega)]
  unfold clampEr
  rw [if_neg (by omega)]

theorem reserveBed_check_and_decrement (h : Hospital) (t : EmergencyType)
    (hv : capacityOk h) :
    reserveBed h t = if h.capacity.availableBeds = 0
      then .error .noAvailableBeds else .ok (reserveBedSpec h t) := by
  obtain ⟨h1, h2, h3, h4, h5, h6⟩ := hv
  by_cases hz : h.capacity.availableBeds = 0
  · simp only [reserveBed, if_pos hz]
  · simp only [reserveBed, if_neg hz]
    have hsv : hospitalSave { h with capacity := reserveBedCapacity h.capacity t } =
        .ok (reserveBedSpec h t) := by
      unfold hospitalSave capacityMinValid preSaveClamp clampBeds clampIcu clampEr
        reserveBedCapacity reserveBedSpec
      dsimp only
      by_cases hicu : icuEmergencyType t ∧ h.capacity.availableIcuBeds > 0
      · obtain ⟨hit, hpos⟩ := hicu
        have hcond : (icuEmergencyType t ∧ h.capacity.availableIcuBeds > 0) = True :=
          eq_true ⟨hit, hpos⟩
        simp only [hcond, if_true]
        split_ifs <;> (try dsimp only at *) <;> first | rfl | (exfalso; omega)
      · have hcond : (icuEmergencyType t ∧ h.capacity.availableIcuBeds > 0) = False :=
          eq_false hicu
        simp only [hcond, if_false]
        split_ifs <;> (try dsimp only at *) <;> first | rfl | (exfalso; omega)
    rw [hsv]

/-- C3 (witness): the check-and-decrement theorem applied to the concrete
`sampleHospital` (10 free beds, 5 free ICU beds) for a cardiac emergency. -/
theorem reserveBed_check_and_decrement_witness :
    reserveBed sampleHospital .cardiac = .ok (reserveBedSpec sampleHospital .cardiac) := by
  have hth := reserveBed_check_and_decrement sampleHospital .cardiac (by decide)
  rw [hth, if_neg (by decide)]

/-! ## Scoring (Hospital.js methods and the hospital service) -/

/-- Trauma-level schema string "None". -/
def traumaLevelNone : String := "None"

/-- Trauma-level schema string "Level I". -/
def traumaLevelOne : String := "Level I"

/-- Trauma-level schema string "Level II". -/
def traumaLevelTwo : String := "Level II"

/-- Specialty string "Neurology". -/
def specNeurology : String := "Neurology"

/-- Specialty string "Maternity". -/
def specMaternity : String := "Maternity"

/-- `hospitalSchema.methods.canHandleEmergency` (Hospital.js lines 177-191):
the explicit emergency-type → capability mapping. -/
def canHandleEmergency (h : Hospital) (t : EmergencyType) : Bool :=
  match t with
  | .cardiac => h.emergencyServices.heartAttackCenter
  | .stroke => h.emergencyServices.strokeCenter
  | .trauma => h.emergencyServices.traumaLevel != traumaLevelNone
  | .burns => h.emergencyServices.burnCenter
  | .poisoning => h.emergencyServices.poisonControl
  | .neurological => h.specialties.contains specNeurology
  | .respiratory => decide (h.equipment.ventilators > 0)
  | .childbirth => h.specialties.contains specMaternity
  | .other => true

/-- `hospitalSchema.methods.calculateEmergencyScore` (Hospital.js lines
194-217): the additive capability score, capped at 100, with the `score +=`
statements kept in source order. -/
def calculateEmergencyScore (h : Hospital) (t : EmergencyType) (severity : Severity) : ℚ :=
  let s1 : ℚ := if h.capacity.availableBeds > 0 then 30 else 0
  let s2 := s1 + (if h.capacity.availableEmergencyRooms > 0 then 20 else 0)
  let s3 := s2 + (if canHandleEmergency h t then 25 else 0)
  let s4 := s3 + (if severity = .critical then
      (if h.emergencyServices.traumaLevel = traumaLevelOne then 15
       else if h.emergencyServices.traumaLevel = traumaLevelTwo then 10 else 0) +
      (if h.capacity.availableIcuBeds > 0 then 10 else 0)
    else 0)
  let s5 := s4 + (if h.equipment.ctScan then 5 else 0)
  let s6 := s5 + (if h.equipment.mriMachine then 5 else 0)
  let s7 := s6 + (if h.equipment.ventilators > 0 then 5 else 0)
  min s7 100

/-- `HospitalService.calculateCapacityScore` (hospital service lines
483-508): bed-utilization ratio times 30, plus ER / ICU availability and the
five equipment bonuses, capped at 100. -/
def calculateCapacityScore (h : Hospital) : ℚ :=
  let bedUtilization := (h.capacity.availableBeds : ℚ) / (h.capacity.totalBeds : ℚ)
  let s1 := bedUtilization * 30
  let s2 := s1 + (if h.capacity.availableEmergencyRooms > 0 then (25 : ℚ) else 0)
  let s3 := s2 + (if h.capacity.availableIcuBeds > 0 then (20 : ℚ) else 0)
  let s4 := s3 + (if h.equipment.ctScan then (5 : ℚ) else 0)
  let s5 := s4 + (if h.equipment.mriMachine then (5 : ℚ) else 0)
  let s6 := s5 + (if h.equipment.ventilators > 0 then (5 : ℚ) else 0)
  let s7 := s6 + (if h.equipment.defibrillators > 0 then (5 : ℚ) else 0)
  let s8 := s7 + (if h.equipment.bloodBank then (5 : ℚ) else 0)
  min s8 100

/-- The summed equipment contribution of the capacity score: 5 points per
item over {CT scan, MRI, ventilators>0, defibrillators>0, blood bank}. -/
def equipPoints (h : Hospital) : ℚ :=
  (if h.equipment.ctScan then (5 : ℚ) else 0) +
  (if h.equipment.mriMachine then (5 : ℚ) else 0) +
  (if h.equipment.ventilators > 0 then (5 : ℚ) else 0) +
  (if h.equipment.defibrillators > 0 then (5 : ℚ) else 0) +
  (if h.equipment.bloodBank then (5 : ℚ) else 0)

/-- The capacity-score formula exactly as the claim words it, with the
equipment contribution capped at 20 points. -/
def capacityScoreClaimed (h : Hospital) : ℚ :=
  min (30 * ((h.capacity.availableBeds : ℚ) / (h.capacity.totalBeds : ℚ))
    + (if h.capacity.availableEmergencyRooms > 0 then (25 : ℚ) else 0)
    + (if h.capacity.availableIcuBeds > 0 then (20 : ℚ) else 0)
    + min (equipPoints h) 20) 100

lemma equipPoints_le (h : Hospital) : equipPoints h ≤ 25 := by
  unfold equipPoints
  split_ifs <;> norm_num

/-- C6 (amended): the capacity score is 30 × (availableBeds/totalBeds), plus
25 for an available emergency room, plus 20 for an available ICU bed, plus 5
points per equipment item — the equipment contribution can reach 25 points
(it is not capped at 20); only the total is capped at 100. -/
theorem calculateCapacityScore_formula (h : Hospital) :
    calculateCapacityScore h =
      min (30 * ((h.capacity.availableBeds : ℚ) / (h.capacity.totalBeds : ℚ))
        + (if h.capacity.availableEmergencyRooms > 0 then (25 : ℚ) else 0)
        + (if h.capacity.availableIcuBeds > 0 then (20 : ℚ) else 0)
        + min (equipPoints h) 25) 100 := by
  rw [min_eq_left (equipPoints_le h)]
  simp only [calculateCapacityScore, equipPoints]
  congr 1
  ring

/-- A hospital whose only capacity-score contribution is its equipment: no
free beds, ICU beds or emergency rooms, but all five equipment items. -/
def equipOnlyHospital : Hospital :=
  { name := "Equipment Depot Hospital",
    location := { longitude := -73, latitude := 40 },
    capacity := { totalBeds := 10, availableBeds := 0, icuBeds := 2,
                  availableIcuBeds := 0, emergencyRooms := 1,
                  availableEmergencyRooms := 0 },
    specialties := [],
    emergencyServices := { traumaLevel := "None", strokeCenter := false,
                           heartAttackCenter := false, burnCenter := false,
                           poisonControl := false },
    equipment := { mriMachine := true, ctScan := true, defibrillators := 4,
                   ventilators := 6, bloodBank := true },
    rating := { overall := 3, emergency := 3, reviews := 0 },
    status := "Active" }

/-- C6 (counterexample): with all five equipment items and nothing else, the
code's capacity score is 25, while the claimed formula (equipment capped at
20 points) yields 20. -/
theorem capacityScore_equipment_cap_counterexample :
    calculateCapacityScore equipOnlyHospital = 25 ∧
    capacityScoreClaimed equipOnlyHospital = 20 := by
  constructor <;>
    norm_num [calculateCapacityScore, capacityScoreClaimed, equipPoints,
      equipOnlyHospital, min_def]

/-! ## Ambulance ETA (ambulance service) -/

/-- `AmbulanceService.calculateETA` (ambulance service lines 244-268):
severity picks the average speed (80/70/60 km/h, the switch leaving the
default 60 otherwise), minutes are the ceiling of the travel time, plus a
2-minute buffer, with a 5-minute minimum. -/
def calculateETA (distance : ℚ) (severity : Severity) : ℤ :=
  let averageSpeed : ℚ :=
    match severity with
    | .critical => 80
    | .urgent => 70
    | .moderate => 60
  let distanceKm := distance / 1000
  let timeHours := distanceKm / averageSpeed
  let timeMinutes : ℤ := Int.ceil (timeHours * 60)
  max (timeMinutes + 2) 5

/-- The ETA formula exactly as the spec words it:
max(ceil(distanceKm / avgSpeedKmH × 60) + 2, 5). -/
def etaSpecified (distance : ℚ) (severity : Severity) : ℤ :=
  let v : ℚ :=
    match severity with
    | .critical => 80
    | .urgent => 70
    | .moderate => 60
  max (Int.ceil (distance / 1000 / v * 60) + 2) 5

/-- C7: the ambulance ETA equals ceil((d/1000)/avgSpeedKmH × 60) + 2 with
speeds 80 (critical) / 70 (urgent) / 60 (otherwise), floored at 5 minutes;
in particular a 10,000 m critical dispatch yields exactly 10 minutes. -/
theorem calculateETA_spec (distance : ℚ) (severity : Severity) :
    calculateETA distance severity = etaSpecified distance severity ∧
    calculateETA 10000 .critical = 10 := by
  constructor
  · cases severity <;> rfl
  · show max (Int.ceil ((10000 : ℚ) / 1000 / 80 * 60) + 2) 5 = 10
    have hc : Int.ceil ((10000 : ℚ) / 1000 / 80 * 60) = 8 := by
      rw [Int.ceil_eq_iff]
      norm_num
    rw [hc]
    norm_num [max_def]

/-! ## Ambulance units (ambulance service) -/

/-- Unit status string "available". -/
def availableStatus : String := "available"

/-- Unit status string "dispatched". -/
def dispatchedStatus : String := "dispatched"

/-- The `currentEmergency` object attached to a dispatched unit. -/
structure DispatchAssignment where
  emergencyId : String
  location : GeoPoint
  severity : Severity
  emergencyType : EmergencyType
  dispatchTime : Nat
deriving DecidableEq, Repr

/-- One entry of the module-level `ambulanceUnits` array.  `currentEmergency`,
`reservedFor` and `reservationTime` model the dynamically added/deleted JS
properties as options. -/
structure AmbulanceUnit where
  id : String
  unit : String
  status : String
  location : GeoPoint
  currentEmergency : Option DispatchAssignment
  reservedFor : Option String
  reservationTime : Option Nat
deriving DecidableEq, Repr

/-- The mutation block of `releaseAmbulance`: status back to available,
`delete` of the three assignment properties. -/
def releaseUnitFields (u : AmbulanceUnit) : AmbulanceUnit :=
  { u with status := availableStatus, currentEmergency := none,
           reservedFor := none, reservationTime := none }

/-- `AmbulanceService.releaseAmbulance` (ambulance service lines 315-326):
`find` the first unit with the given id and, when found, mutate that unit in
place; an unknown id leaves the array untouched and raises nothing. -/
def releaseAmbulance : List AmbulanceUnit → String → List AmbulanceUnit
  | [], _ => []
  | u :: rest, ambulanceId =>
    if u.id = ambulanceId then releaseUnitFields u :: rest
    else u :: releaseAmbulance rest ambulanceId

/-- The mutation block of `dispatchAmbulance` (ambulance service lines
141-175): status to dispatched and the `currentEmergency` object attached
(the simulated `setTimeout` status advance is outside this model). -/
def dispatchAmbulanceUnit (u : AmbulanceUnit) (emergencyId : String)
    (location : GeoPoint) (severity : Severity) (t : EmergencyType)
    (now : Nat) : AmbulanceUnit :=
  { u with status := dispatchedStatus,
           currentEmergency := some
             { emergencyId := emergencyId, location := location,
               severity := severity, emergencyType := t, dispatchTime := now } }

lemma releaseAmbulance_cons (u : AmbulanceUnit) (rest : List AmbulanceUnit)
    (ambulanceId : String) :
    releaseAmbulance (u :: rest) ambulanceId =
      if u.id = ambulanceId then releaseUnitFields u :: rest
      else u :: releaseAmbulance rest ambulanceId := rfl

lemma releaseAmbulance_not_found (units : List AmbulanceUnit) (ambulanceId : String)
    (hnone : ∀ u ∈ units, u.id ≠ ambulanceId) :
    releaseAmbulance units ambulanceId = units := by
  induction units with
  | nil => rfl
  | cons u rest ih =>
    rw [releaseAmbulance_cons, if_neg (hnone u (by simp)),
      ih (fun v hv => hnone v (by simp [hv]))]

lemma releaseAmbulance_idem (units : List AmbulanceUnit) (ambulanceId : String) :
    releaseAmbulance (releaseAmbulance units ambulanceId) ambulanceId =
      releaseAmbulance units ambulanceId := by
  induction units with
  | nil => rfl
  | cons u rest ih =>
    by_cases hid : u.id = ambulanceId
    · have h2 : (releaseUnitFields u).id = ambulanceId := hid
      calc releaseAmbulance (releaseAmbulance (u :: rest) ambulanceId) ambulanceId
          = releaseAmbulance (releaseUnitFields u :: rest) ambulanceId := by
            rw [releaseAmbulance_cons, if_pos hid]
        _ = releaseUnitFields (releaseUnitFields u) :: rest := by
            rw [releaseAmbulance_cons, if_pos h2]
        _ = releaseUnitFields u :: rest := rfl
        _ = releaseAmbulance (u :: rest) ambulanceId := by
            rw [releaseAmbulance_cons, if_pos hid]
    · calc releaseAmbulance (releaseAmbulance (u :: rest) ambulanceId) ambulanceId
          = releaseAmbulance (u :: releaseAmbulance rest ambulanceId) ambulanceId := by
            rw [releaseAmbulance_cons, if_neg hid]
        _ = u :: releaseAmbulance (releaseAmbulance rest ambulanceId) ambulanceId := by
            rw [releaseAmbulance_cons, if_neg hid]
        _ = u :: releaseAmbulance rest ambulanceId := by rw [ih]
        _ = releaseAmbulance (u :: rest) ambulanceId := by
            rw [releaseAmbulance_cons, if_neg hid]

lemma releaseAmbulance_found (units : List AmbulanceUnit) (ambulanceId : String)
    (u : AmbulanceUnit) (hf : units.find? (fun v => v.id == ambulanceId) = some u) :
    (releaseAmbulance units ambulanceId).find? (fun v => v.id == ambulanceId) =
      some (releaseUnitFields u) := by
  induction units with
  | nil => simp at hf
  | cons w rest ih =>
    by_cases hid : w.id = ambulanceId
    · rw [List.find?_cons_of_pos _ (by simp [hid])] at hf
      cases hf
      rw [releaseAmbulance_cons, if_pos hid]
      exact List.find?_cons_of_pos _ (by simp [releaseUnitFields, hid])
    · rw [List.find?_cons_of_neg _ (by simp [hid])] at hf
      rw [releaseAmbulance_cons, if_neg hid,
        List.find?_cons_of_neg _ (by simp [hid])]
      exact ih hf

/-- C10: the ambulance release operation is idempotent and total on unit
ids — an unknown id is a no-op; releasing twice equals releasing once; and
the first unit carrying a known id ends up available with its
current-emergency, reserved-for and reservation-time fields cleared. -/
theorem releaseAmbulance_idempotent_total (units : List AmbulanceUnit)
    (ambulanceId : String) :
    ((∀ u ∈ units, u.id ≠ ambulanceId) →
      releaseAmbulance units ambulanceId = units) ∧
    releaseAmbulance (releaseAmbulance units ambulanceId) ambulanceId =
      releaseAmbulance units ambulanceId ∧
    (∀ u, units.find? (fun v => v.id == ambulanceId) = some u →
      (releaseAmbulance units ambulanceId).find? (fun v => v.id == ambulanceId) =
        some (releaseUnitFields u)) :=
  ⟨releaseAmbulance_not_found units ambulanceId,
   releaseAmbulance_idem units ambulanceId,
   fun u hf => releaseAmbulance_found units ambulanceId u hf⟩

/-- Id of the first seeded ambulance unit. -/
def idAlpha : String := "AMB001"

/-- An id matching no seeded unit. -/
def idUnknown : String := "AMB999"

/-- Id used for a sample emergency. -/
def emgIdSample : String := "EMG-SAMPLE1"

/-- The first seeded ambulance unit, dispatched to a sample emergency. -/
def dispatchedAlpha : AmbulanceUnit :=
  dispatchAmbulanceUnit
    { id := "AMB001", unit := "Unit Alpha-1", status := "available",
      location := { longitude := -74, latitude := 41 },
      currentEmergency := none, reservedFor := none, reservationTime := none }
    emgIdSample { longitude := -74, latitude := 40 } .critical .cardiac 0

/-- C10 (witness): the release theorem applied to the concrete one-unit
fleet — an unknown id leaves it untouched, and releasing the dispatched unit
yields it available with its assignment cleared. -/
theorem releaseAmbulance_idempotent_total_witness :
    releaseAmbulance [dispatchedAlpha] idUnknown = [dispatchedAlpha] ∧
    (releaseAmbulance [dispatchedAlpha] idAlpha).find? (fun v => v.id == idAlpha) =
      some (releaseUnitFields dispatchedAlpha) :=
  ⟨(releaseAmbulance_idempotent_total [dispatchedAlpha] idUnknown).1 (by decide),
   (releaseAmbulance_idempotent_total [dispatchedAlpha] idAlpha).2.2
     dispatchedAlpha (by decide)⟩

/-! ## Cancellation (PATCH /cancel/:emergencyId in routes/emergency.js) -/

/-- The state the cancel handler can observe: the emergency it looked up,
and — for the resource-release question — the hospital holding the bed
reservation and the ambulance fleet. -/
structure SystemState where
  emergency : Emergency
  hospital : Hospital
  ambulances : List AmbulanceUnit
deriving DecidableEq, Repr

/-- Error channel of the cancel handler (404 / 400 responses). -/
inductive CancelError
  | notFound
  | alreadyTerminal
deriving DecidableEq, Repr

/-- The cancel handler (routes/emergency.js lines 366-417): reject when the
status is already completed or cancelled, otherwise `updateStatus('cancelled',
cancelledBy, reason)` and notify.  The handler never touches the hospital
document or the ambulance fleet — no bed restore, no `releaseAmbulance`
call appears in it. -/
def cancelEmergency (st : SystemState) (reason cancelledBy : String)
    (now : Nat) : Except CancelError SystemState :=
  if st.emergency.response.status = .completed ∨
      st.emergency.response.status = .cancelled then
    .error .alreadyTerminal
  else
    .ok { st with emergency := updateStatus st.emergency .cancelled cancelledBy reason now }

/-- C2 (amended): cancelling a non-terminal emergency transitions it to
`cancelled`, but releases nothing — the hospital's capacity counters and
every ambulance unit's state are exactly what they were before the cancel;
the handler contains no bed restore and never calls the ambulance release
operation. -/
theorem cancel_releases_nothing (st : SystemState) (reason cancelledBy : String)
    (now : Nat) (h1 : st.emergency.response.status ≠ .completed)
    (h2 : st.emergency.response.status ≠ .cancelled) :
    (cancelEmergency st reason cancelledBy now).map SystemState.hospital =
      .ok st.hospital ∧
    (cancelEmergency st reason cancelledBy now).map SystemState.ambulances =
      .ok st.ambulances ∧
    (cancelEmergency st reason cancelledBy now).map
      (fun s => s.emergency.response.status) = .ok EStatus.cancelled := by
  unfold cancelEmergency
  rw [if_neg (by tauto)]
  refine ⟨rfl, rfl, ?_⟩
  simp only [Except.map]
  rw [updateStatus_status]

/-- A sample emergency sitting in the `processing` status. -/
def processingEmergency : Emergency :=
  { emergencyId := "EMG-SAMPLE1",
    response := { status := .processing, dispatchTime := none, arrivalTime := none,
                  transportTime := none, hospitalArrivalTime := none,
                  completionTime := none },
    timeline := [] }

/-- The sample hospital after its bed reservation for the cardiac sample
emergency succeeded. -/
def reservedSampleHospital : Hospital := reserveBedSpec sampleHospital .cardiac

/-- The full pre-cancel state: bed reserved, unit dispatched, emergency
processing. -/
def preCancelState : SystemState :=
  { emergency := processingEmergency,
    hospital := reservedSampleHospital,
    ambulances := [dispatchedAlpha] }

/-- Cancellation reason string. -/
def cancelReason : String := "User cancelled"

/-- Cancellation actor string. -/
def patientActor : String := "patient"

/-- C2 (counterexample): starting from a state holding a successful bed
reservation (10 → 9 free beds at the sample hospital) and a dispatched
ambulance unit, cancel succeeds and transitions to `cancelled`, yet the
hospital still shows 9 free beds (not the pre-reservation 10) and the unit
is still dispatched — the claimed resource release does not happen. -/
theorem cancel_leaves_reservation_counterexample :
    reserveBed sampleHospital .cardiac = .ok reservedSampleHospital ∧
    (cancelEmergency preCancelState cancelReason patientActor 9).map
      (fun s => s.emergency.response.status) = .ok EStatus.cancelled ∧
    (cancelEmergency preCancelState cancelReason patientActor 9).map
      SystemState.hospital = .ok reservedSampleHospital ∧
    (cancelEmergency preCancelState cancelReason patientActor 9).map
      SystemState.ambulances = .ok [dispatchedAlpha] ∧
    reservedSampleHospital.capacity.availableBeds = 9 ∧
    sampleHospital.capacity.availableBeds = 10 ∧
    dispatchedAlpha.status ≠ availableStatus := by
  refine ⟨by decide, ?_, ?_, ?_, by decide, by decide, by decide⟩ <;> decide

/-- C2 (witness): the amended cancel theorem applied to the concrete
pre-cancel state, whose emergency sits in the non-terminal `processing`
status. -/
theorem cancel_releases_nothing_witness :
    (cancelEmergency preCancelState cancelReason patientActor 9).map
      SystemState.hospital = .ok preCancelState.hospital ∧
    (cancelEmergency preCancelState cancelReason patientActor 9).map
      SystemState.ambulances = .ok preCancelState.ambulances ∧
    (cancelEmergency preCancelState cancelReason patientActor 9).map
      (fun s => s.emergency.response.status) = .ok EStatus.cancelled :=
  cancel_releases_nothing preCancelState cancelReason patientActor 9
    (by decide) (by decide)

/-! ## Haversine distance (identical `calculateDistance` bodies in the
hospital service and the ambulance service) -/

/-- `toRadians(degrees)`: degrees × (π / 180). -/
noncomputable def toRadians (degrees : ℝ) : ℝ := degrees * (Real.pi / 180)

/-- JavaScript `Math.atan2(y, x)` over the reals. -/
noncomputable def atan2 (y x : ℝ) : ℝ :=
  if 0 < x then Real.arctan (y / x)
  else if x < 0 ∧ 0 ≤ y then Real.arctan (y / x) + Real.pi
  else if x < 0 ∧ y < 0 then Real.arctan (y / x) - Real.pi
  else if x = 0 ∧ 0 < y then Real.pi / 2
  else if x = 0 ∧ y < 0 then -(Real.pi / 2)
  else 0

/-- `calculateDistance(lat1, lon1, lat2, lon2)` (hospital service lines
451-463 and ambulance service lines 220-232, two identical copies):
the Haversine great-circle distance with Earth radius 6,371,000 m.
No validation of any kind is performed on the inputs. -/
noncomputable def calculateDistance (lat1 lon1 lat2 lon2 : ℝ) : ℝ :=
  let R : ℝ := 6371000
  let dLat := toRadians (lat2 - lat1)
  let dLon := toRadians (lon2 - lon1)
  let a := Real.sin (dLat / 2) * Real.sin (dLat / 2) +
    Real.cos (toRadians lat1) * Real.cos (toRadians lat2) *
    Real.sin (dLon / 2) * Real.sin (dLon / 2)
  let c := 2 * atan2 (Real.sqrt a) (Real.sqrt (1 - a))
  R * c

lemma atan2_nonneg (y x : ℝ) (hy : 0 ≤ y) (hx : 0 ≤ x) : 0 ≤ atan2 y x := by
  unfold atan2
  split_ifs with p1 p2 p3 p4 p5
  · have : (0 : ℝ) ≤ y / x := div_nonneg hy (le_of_lt p1)
    have harc := Real.arctan_strictMono.monotone this
    rwa [Real.arctan_zero] at harc
  · exact absurd p2.1 (not_lt.mpr hx)
  · exact absurd p3.1 (not_lt.mpr hx)
  · positivity
  · exact absurd p5.2 (not_lt.mpr hy)
  · exact le_refl 0

lemma atan2_sqrt_nonneg (a : ℝ) :
    0 ≤ atan2 (Real.sqrt a) (Real.sqrt (1 - a)) :=
  atan2_nonneg _ _ (Real.sqrt_nonneg a) (Real.sqrt_nonneg (1 - a))

lemma haversine_half_angle (u v : ℝ) :
    Real.sin (toRadians (u - v) / 2) = -Real.sin (toRadians (v - u) / 2) := by
  have harg : toRadians (u - v) / 2 = -(toRadians (v - u) / 2) := by
    unfold toRadians; ring
  rw [harg, Real.sin_neg]

lemma calculateDistance_symm (lat1 lon1 lat2 lon2 : ℝ) :
    calculateDistance lat1 lon1 lat2 lon2 = calculateDistance lat2 lon2 lat1 lon1 := by
  simp only [calculateDistance]
  rw [haversine_half_angle lat1 lat2, haversine_half_angle lon1 lon2]
  ring_nf

lemma calculateDistance_nonneg (lat1 lon1 lat2 lon2 : ℝ) :
    0 ≤ calculateDistance lat1 lon1 lat2 lon2 := by
  simp only [calculateDistance]
  exact mul_nonneg (by norm_num) (mul_nonneg (by norm_num) (atan2_sqrt_nonneg _))

lemma calculateDistance_self (lat lon : ℝ) : calculateDistance lat lon lat lon = 0 := by
  simp only [calculateDistance, toRadians, atan2]
  norm_num [Real.sqrt_one, Real.arctan_zero]

/-- C9: the Haversine distance is symmetric in its two coordinate pairs,
always non-negative, and zero on identical points. -/
theorem calculateDistance_symm_nonneg_self (lat1 lon1 lat2 lon2 : ℝ) :
    calculateDistance lat1 lon1 lat2 lon2 = calculateDistance lat2 lon2 lat1 lon1 ∧
    0 ≤ calculateDistance lat1 lon1 lat2 lon2 ∧
    calculateDistance lat1 lon1 lat1 lon1 = 0 :=
  ⟨calculateDistance_symm lat1 lon1 lat2 lon2,
   calculateDistance_nonneg lat1 lon1 lat2 lon2,
   calculateDistance_self lat1 lon1⟩

/-- Error channel of the validated distance calculation the spec
describes. -/
inductive DistanceError
  | invalidCoordinates
deriving DecidableEq, Repr

/-- The coordinate ranges of spec section 4.1: latitudes in [-90, 90],
longitudes in [-180, 180]. -/
def coordsValid (lat1 lon1 lat2 lon2 : ℝ) : Prop :=
  (-90 ≤ lat1 ∧ lat1 ≤ 90) ∧ (-90 ≤ lat2 ∧ lat2 ≤ 90) ∧
  (-180 ≤ lon1 ∧ lon1 ≤ 180) ∧ (-180 ≤ lon2 ∧ lon2 ≤ 180)

open Classical in
/-- The distance calculation exactly as the spec words it: fail with a
validation error when any coordinate is out of range, otherwise the
Haversine value.  (Refinement comparison definition; the code performs no
such check.) -/
noncomputable def calculateDistanceChecked (lat1 lon1 lat2 lon2 : ℝ) :
    Except DistanceError ℝ :=
  if coordsValid lat1 lon1 lat2 lon2 then
    .ok (calculateDistance lat1 lon1 lat2 lon2)
  else .error .invalidCoordinates

/-- C8 (counterexample): at latitude 91 (out of range) the spec-described
checked calculation fails, but the code's `calculateDistance` happily
returns a number — 0 for two identical out-of-range points — because the
source contains no coordinate validation at all. -/
theorem distance_validation_counterexample :
    calculateDistanceChecked 91 0 91 0 = .error .invalidCoordinates ∧
    calculateDistance 91 0 91 0 = 0 := by
  constructor
  · unfold calculateDistanceChecked
    rw [if_neg]
    intro hv
    have h91 : (91 : ℝ) ≤ 90 := hv.1.2
    norm_num at h91
  · exact calculateDistance_self 91 0

/-- C8 (amended): the code's distance calculation performs no range
validation and never fails: it is a total function agreeing with the
spec-described checked calculation exactly on in-range inputs, and it still
returns a plain number (0 for identical points) on out-of-range inputs. -/
theorem calculateDistance_no_validation (lat1 lon1 lat2 lon2 : ℝ) :
    (coordsValid lat1 lon1 lat2 lon2 →
      calculateDistanceChecked lat1 lon1 lat2 lon2 =
        .ok (calculateDistance lat1 lon1 lat2 lon2)) ∧
    calculateDistance lat1 lon1 lat1 lon1 = 0 :=
  ⟨fun hv => by unfold calculateDistanceChecked; rw [if_pos hv],
   calculateDistance_self lat1 lon1⟩

/-- C8 (witness): the amended theorem applied at the in-range origin pair
and at an out-of-range latitude of 91 degrees. -/
theorem calculateDistance_no_validation_witness :
    calculateDistanceChecked 0 0 0 0 = .ok (calculateDistance 0 0 0 0) ∧
    calculateDistance 91 5 91 5 = 0 :=
  ⟨(calculateDistance_no_validation 0 0 0 0).1
      (by unfold coordsValid; norm_num),
   (calculateDistance_no_validation 91 5 91 5).2⟩

/-! ## Hospital matching (HospitalService.findNearbyHospitals) -/

open Classical in
/-- `HospitalService.calculateDistanceScore` (hospital service lines
475-478): 0 at or beyond the radius, otherwise 100 × (1 − d/maxD), floored
at 0. -/
noncomputable def calculateDistanceScore (distance maxDistance : ℝ) : ℝ :=
  if distance ≥ maxDistance then 0 else max 0 (100 - distance / maxDistance * 100)

/-- One element of the scored list `findNearbyHospitals` builds. -/
structure ScoredHospital where
  hospital : Hospital
  distance : ℝ
  score : ℤ
  emergencyScore : ℚ
  distanceScore : ℝ
  capacityScore : ℚ

/-- The per-hospital body of the `hospitals.map` in `findNearbyHospitals`
(hospital service lines 414-433): Haversine distance to the patient, the
three component scores, the weighted final score, and `Math.round`
(modelled by `round`, which is ⌊x + 1/2⌋ exactly like `Math.round`). -/
noncomputable def scoreHospital (latitude longitude : ℝ) (t : EmergencyType)
    (severity : Severity) (maxDistance : ℝ) (h : Hospital) : ScoredHospital :=
  let distance := calculateDistance latitude longitude
    (h.location.latitude : ℝ) (h.location.longitude : ℝ)
  let emergencyScore := calculateEmergencyScore h t severity
  let distanceScore := calculateDistanceScore distance maxDistance
  let capacityScore := calculateCapacityScore h
  let finalScore := (emergencyScore : ℝ) * 0.4 + distanceScore * 0.3 +
    (capacityScore : ℝ) * 0.3
  { hospital := h, distance := distance, score := round finalScore,
    emergencyScore := emergencyScore, distanceScore := distanceScore,
    capacityScore := capacityScore }

/-- Insertion step of the stable descending-by-score sort: an element passes
over exactly the entries with strictly greater score, so equal-score entries
keep their original relative order — the observable behaviour of the
ES2019+ stable `Array.sort` with comparator `(a, b) => b.score - a.score`. -/
def insertDesc (x : ScoredHospital) : List ScoredHospital → List ScoredHospital
  | [] => [x]
  | y :: ys => if y.score ≤ x.score then x :: y :: ys else y :: insertDesc x ys

/-- The stable descending sort `scoredHospitals.sort((a, b) => b.score -
a.score)` (hospital service line 436). -/
def sortByScoreDesc : List ScoredHospital → List ScoredHospital
  | [] => []
  | x :: xs => insertDesc x (sortByScoreDesc xs)

/-- `HospitalService.findNearbyHospitals` (hospital service lines 389-446):
score every retrieved hospital and sort by score, highest first.  The
geospatial retrieval (`Hospital.find` with `$near`, status Active,
`availableBeds > 0`, `limit(20)`) is the Store collaborator; its result list
is the input here. -/
noncomputable def findNearbyHospitals (longitude latitude : ℝ)
    (hospitals : List Hospital) (t : EmergencyType) (severity : Severity)
    (maxDistance : ℝ) : List ScoredHospital :=
  sortByScoreDesc (hospitals.map (scoreHospital latitude longitude t severity maxDistance))

lemma insertDesc_nil (x : ScoredHospital) : insertDesc x [] = [x] := rfl

lemma insertDesc_cons (x y : ScoredHospital) (ys : List ScoredHospital) :
    insertDesc x (y :: ys) =
      if y.score ≤ x.score then x :: y :: ys else y :: insertDesc x ys := rfl

lemma sortByScoreDesc_nil : sortByScoreDesc [] = [] := rfl

lemma sortByScoreDesc_cons (x : ScoredHospital) (xs : List ScoredHospital) :
    sortByScoreDesc (x :: xs) = insertDesc x (sortByScoreDesc xs) := rfl

lemma insertDesc_perm (x : ScoredHospital) (l : List ScoredHospital) :
    (insertDesc x l).Perm (x :: l) := by
  induction l with
  | nil => exact List.Perm.refl _
  | cons y ys ih =>
    by_cases h : y.score ≤ x.score
    · rw [insertDesc_cons, if_pos h]
    · rw [insertDesc_cons, if_neg h]
      exact (ih.cons y).trans (List.Perm.swap x y ys)

lemma insertDesc_pairwise (x : ScoredHospital) (l : List ScoredHospital)
    (hl : l.Pairwise (fun a b => b.score ≤ a.score)) :
    (insertDesc x l).Pairwise (fun a b => b.score ≤ a.score) := by
  induction l with
  | nil => simp [insertDesc_nil]
  | cons y ys ih =>
    rw [List.pairwise_cons] at hl
    obtain ⟨hy, hys⟩ := hl
    by_cases h : y.score ≤ x.score
    · rw [insertDesc_cons, if_pos h]
      refine List.Pairwise.cons ?_ (List.Pairwise.cons hy hys)
      intro z hz
      rcases List.mem_cons.mp hz with hzy | hzys
      · rw [hzy]; exact h
      · exact le_trans (hy z hzys) h
    · rw [insertDesc_cons, if_neg h]
      refine List.Pairwise.cons ?_ (ih hys)
      intro z hz
      rcases List.mem_cons.mp ((insertDesc_perm x ys).mem_iff.mp hz) with hzx | hzys
      · rw [hzx]; exact le_of_lt (not_le.mp h)
      · exact hy z hzys

lemma insertDesc_filter (x : ScoredHospital) (l : List ScoredHospital) (k : ℤ) :
    (insertDesc x l).filter (fun s => decide (s.score = k)) =
      if x.score = k then x :: l.filter (fun s => decide (s.score = k))
      else l.filter (fun s => decide (s.score = k)) := by
  induction l with
  | nil =>
    rw [insertDesc_nil]
    by_cases hx : x.score = k
    · rw [if_pos hx]; simp [hx]
    · rw [if_neg hx]; simp [hx]
  | cons y ys ih =>
    by_cases h : y.score ≤ x.score
    · rw [insertDesc_cons, if_pos h]
      by_cases hx : x.score = k
      · rw [if_pos hx]
        rw [List.filter_cons, if_pos (by simp [hx])]
      · rw [if_neg hx]
        rw [List.filter_cons, if_neg (by simp [hx])]
    · rw [insertDesc_cons, if_neg h]
      by_cases hx : x.score = k
      · have hyk : ¬ y.score = k := by
          intro hyk
          exact h (le_of_eq (by rw [hyk, hx]))
        rw [if_pos hx]
        rw [List.filter_cons, if_neg (by simp [hyk]), List.filter_cons,
          if_neg (by simp [hyk]), ih, if_pos hx]
      · rw [if_neg hx]
        by_cases hy : y.score = k
        · rw [List.filter_cons, if_pos (by simp [hy]), List.filter_cons,
            if_pos (by simp [hy]), ih, if_neg hx]
        · rw [List.filter_cons, if_neg (by simp [hy]), List.filter_cons,
            if_neg (by simp [hy]), ih, if_neg hx]

lemma sortByScoreDesc_perm (l : List ScoredHospital) : (sortByScoreDesc l).Perm l := by
  induction l with
  | nil => exact List.Perm.refl _
  | cons x xs ih =>
    rw [sortByScoreDesc_cons]
    exact (insertDesc_perm x (sortByScoreDesc xs)).trans (ih.cons x)

lemma sortByScoreDesc_pairwise (l : List ScoredHospital) :
    (sortByScoreDesc l).Pairwise (fun a b => b.score ≤ a.score) := by
  induction l with
  | nil => simp [sortByScoreDesc_nil]
  | cons x xs ih =>
    rw [sortByScoreDesc_cons]
    exact insertDesc_pairwise x (sortByScoreDesc xs) ih

lemma sortByScoreDesc_filter (l : List ScoredHospital) (k : ℤ) :
    (sortByScoreDesc l).filter (fun s => decide (s.score = k)) =
      l.filter (fun s => decide (s.score = k)) := by
  induction l with
  | nil => rfl
  | cons x xs ih =>
    rw [sortByScoreDesc_cons, insertDesc_filter, List.filter_cons]
    by_cases hx : x.score = k
    · rw [if_pos hx, ih, if_pos (by simp [hx])]
    · rw [if_neg hx, ih, if_neg (by simp [hx])]

/-- C5 (amended): `findNearbyHospitals` returns the scored hospitals sorted
in descending order of rounded final score only; the output is a permutation
of the scored input and equal-score entries keep the retrieval order (the
sort is stable) — no distance or rating tie-break is applied. -/
theorem findNearbyHospitals_sorted (longitude latitude : ℝ)
    (hospitals : List Hospital) (t : EmergencyType) (severity : Severity)
    (maxDistance : ℝ) :
    (findNearbyHospitals longitude latitude hospitals t severity
        maxDistance).Pairwise (fun a b => b.score ≤ a.score) ∧
    (findNearbyHospitals longitude latitude hospitals t severity
        maxDistance).Perm
      (hospitals.map (scoreHospital latitude longitude t severity maxDistance)) ∧
    ∀ k : ℤ,
      (findNearbyHospitals longitude latitude hospitals t severity
          maxDistance).filter (fun s => decide (s.score = k)) =
        (hospitals.map (scoreHospital latitude longitude t severity
          maxDistance)).filter (fun s => decide (s.score = k)) :=
  ⟨sortByScoreDesc_pairwise _, sortByScoreDesc_perm _,
   fun k => sortByScoreDesc_filter _ k⟩

/-- `sampleHospital` with overall rating 2. -/
def lowRatedHospital : Hospital :=
  { sampleHospital with rating := { overall := 2, emergency := 3, reviews := 10 } }

/-- `sampleHospital` with overall rating 5, at the same location with the
same capacity and equipment as `lowRatedHospital`. -/
def highRatedHospital : Hospital :=
  { sampleHospital with rating := { overall := 5, emergency := 3, reviews := 10 } }

/-- C5 (counterexample): two hospitals tied on score and distance (identical
except for overall rating 2 vs 5), listed low-rating first, come back from
`findNearbyHospitals` still low-rating first — the claimed descending-rating
tie-break would have returned the 5-rated hospital first. -/
theorem findNearby_tiebreak_counterexample :
    ((findNearbyHospitals (-74) 40 [lowRatedHospital, highRatedHospital]
        .cardiac .critical 50000).map (fun s => s.hospital.rating.overall)) = [2, 5] ∧
    (scoreHospital 40 (-74) .cardiac .critical 50000 lowRatedHospital).score =
      (scoreHospital 40 (-74) .cardiac .critical 50000 highRatedHospital).score ∧
    (scoreHospital 40 (-74) .cardiac .critical 50000 lowRatedHospital).distance =
      (scoreHospital 40 (-74) .cardiac .critical 50000 highRatedHospital).distance ∧
    lowRatedHospital.rating.overall < highRatedHospital.rating.overall := by
  have hs : (scoreHospital 40 (-74) EmergencyType.cardiac Severity.critical 50000
      highRatedHospital).score =
        (scoreHospital 40 (-74) EmergencyType.cardiac Severity.critical 50000
          lowRatedHospital).score := rfl
  refine ⟨?_, hs.symm, rfl, by norm_num [lowRatedHospital, highRatedHospital]⟩
  unfold findNearbyHospitals
  rw [List.map_cons, List.map_cons, List.map_nil, sortByScoreDesc_cons,
    sortByScoreDesc_cons, sortByScoreDesc_nil, insertDesc_nil, insertDesc_cons,
    if_pos (le_of_eq hs), List.map_cons, List.map_cons, List.map_nil]
  rfl

end MedEmergency
